import Mathlib

/-
Verification development for the `dymoapi` Python client library
(`src/dymoapi/dymoapi.py`, `src/dymoapi/response_models.py`).

Shallow embedding choices:
* Python JSON-like dictionaries are association lists `List (String × JValue)`.
  Python dict keys are unique; the dictionary operations below (`dictLookup`,
  `dictSet`, `dictPop`) agree with Python dict semantics on duplicate-free
  association lists.  `dictSet` replaces an existing key in place (preserving
  position, as CPython dicts do) and appends otherwise; `dictPop` removes the
  key and is `none` (a `KeyError`) when the key is absent.
* Python truthiness (`if x:`) is `JValue.truthy` / `optStrTruthy` /
  `optJTruthy`.
* The remote HTTP service behind `requests.post` and the per-capability branch
  modules (`dymoapi.branches.*`, external collaborators not under `src/`) are
  modelled as oracles: the token endpoint as a function from the posted JSON
  body to an `HttpOutcome`, and each branch function's returned raw payload as
  an association-list argument.  `DotDict` (from `dymoapi.utils.basics`, not
  under `src/`) only adds attribute access to a dict and is modelled as the
  identity on dictionaries.
* Exceptions are explicit: a Python function that can raise returns `PyResult`.
  The `try/except (requests.RequestException, AuthenticationError)` block of
  `initialize_tokens` is modelled by `verifyAttempt` (the `try` body) plus
  `caughtByHandler` (the `except` clause).
-/

/-- A JSON-like Python value, as produced by `response.json()` and passed
around by the client.  Objects are association lists in insertion order. -/
inductive JValue where
  | null
  | bool (b : Bool)
  | str (s : String)
  | num (n : Int)
  | obj (fields : List (String × JValue))
  | arr (items : List JValue)

/-- Python truthiness of a JSON-like value: `None`, `False`, `""`, `0`, `{}`
and `[]` are falsy, everything else is truthy. -/
def JValue.truthy : JValue → Bool
  | .null => false
  | .bool b => b
  | .str s => !(s == "")
  | .num n => !(n == 0)
  | .obj fields => !fields.isEmpty
  | .arr items => !items.isEmpty

/-- Python truthiness of an optional string (`None` and `""` are falsy). -/
def optStrTruthy : Option String → Bool
  | none => false
  | some s => !(s == "")

/-- Python truthiness of an optional JSON value. -/
def optJTruthy : Option JValue → Bool
  | none => false
  | some v => v.truthy

/-- First-match lookup in an association list, i.e. Python `d[k]` / `d.get(k)`
on a duplicate-free dict. -/
def dictLookup (d : List (String × JValue)) (k : String) : Option JValue :=
  match d with
  | [] => none
  | (k2, v) :: rest => if k2 == k then some v else dictLookup rest k

/-- Python `d.get(k)` (default `None`). -/
def jGetD (d : List (String × JValue)) (k : String) : JValue :=
  (dictLookup d k).getD .null

/-- Python `d[k] = v`: replace the value of an existing key in place, else
append the new pair at the end (CPython insertion-order semantics). -/
def dictSet (d : List (String × JValue)) (k : String) (v : JValue) :
    List (String × JValue) :=
  if (dictLookup d k).isSome then
    d.map (fun p => if p.1 == k then (k, v) else p)
  else d ++ [(k, v)]

/-- Python `d.pop(k)` (no default): `none` models the `KeyError` raised when
the key is absent, otherwise the dictionary without the key. -/
def dictPop (d : List (String × JValue)) (k : String) :
    Option (List (String × JValue)) :=
  match dictLookup d k with
  | none => none
  | some _ => some (d.filter (fun p => !(p.1 == k)))

/-- The Python exceptions that appear in `dymoapi.py`.
`AuthenticationError` comes from `dymoapi.exceptions` (not under `src/`); it is
an ordinary exception class raised and caught inside `initialize_tokens`. -/
inductive PyError where
  | typeError (msg : String)
  | keyError (key : String)
  | attributeError (msg : String)
  | authenticationError (msg : String)
  | requestException (msg : String)
deriving Repr, DecidableEq

/-- The message carried by an exception (used in the logged error text). -/
def PyError.message : PyError → String
  | .typeError m => m
  | .keyError k => k
  | .attributeError m => m
  | .authenticationError m => m
  | .requestException m => m

/-- Result of running a Python expression that may raise. -/
inductive PyResult (α : Type) where
  | ok (value : α)
  | raised (e : PyError)

/-- The constructor configuration dictionary of `DymoAPI.__init__`
(`config.get("root_api_key")`, `config.get("api_key")`,
`config.get("server_email_config")`, `config.get("local", False)`). -/
structure Config where
  root_api_key : Option String
  api_key : Option String
  server_email_config : Option JValue
  localMode : Bool

/-- The class-level (process-wide) token cache of `DymoAPI`
(`tokens_response = None`, `tokens_verified = False` at lines 12-13). -/
structure CacheState where
  tokens_response : Option JValue
  tokens_verified : Bool

/-- The cache state at process start. -/
def initialCacheState : CacheState := { tokens_response := none, tokens_verified := false }

/-- The short-circuit condition of `initialize_tokens` (line 55):
`if DymoAPI.tokens_response and DymoAPI.tokens_verified`, with Python
truthiness on the cached response dict. -/
def cacheHit (st : CacheState) : Bool :=
  (match st.tokens_response with
   | none => false
   | some v => v.truthy) && st.tokens_verified

/-- One HTTP request attempted by the client (URL and JSON body). -/
structure HttpRequest where
  url : String
  body : JValue

/-- Outcome of the POST to the token-verification endpoint as seen inside the
`try` block: either a `requests.RequestException` (network error, or a non-2xx
status surfaced by `raise_for_status`), or a 2xx response whose parsed JSON
body is the given object. -/
inductive HttpOutcome where
  | transportError (msg : String)
  | ok (data : List (String × JValue))

/-- Result of `initialize_tokens`: the new cache state, the network requests
attempted, whether the cached-tokens message was printed, the
`logging.error` message if any, and the exception propagated to the caller
if the code raised out of the method. -/
structure InitResult where
  state : CacheState
  requests : List HttpRequest
  usedCache : Bool
  loggedError : Option String
  raised : Option PyError

/-- The `tokens` dictionary built at lines 56-58: the `"root"` key is added
only when `self.root_api_key` is truthy, then `"private"` only when
`self.api_key` is truthy, each mapped to an f-string `"Bearer <key>"`. -/
def buildTokens (cfg : Config) : List (String × JValue) :=
  (if optStrTruthy cfg.root_api_key then
     [("root", JValue.str ("Bearer " ++ cfg.root_api_key.getD ""))]
   else []) ++
  (if optStrTruthy cfg.api_key then
     [("private", JValue.str ("Bearer " ++ cfg.api_key.getD ""))]
   else [])

/-- The JSON body posted to the verification endpoint: `{"tokens": tokens}`. -/
def tokensBody (cfg : Config) : JValue := .obj [("tokens", .obj (buildTokens cfg))]

/-- The body of the `try` block at lines 62-70, given the outcome of the POST:
raises `RequestException` on transport failure; raises
`AuthenticationError` when a truthy `root_api_key` was supplied but
`data.get("root")` is falsy, or a truthy `api_key` was supplied but
`data.get("private")` is falsy; otherwise stores the record and sets
`tokens_verified = True`. -/
def verifyAttempt (cfg : Config) (out : HttpOutcome) : PyResult CacheState :=
  match out with
  | .transportError msg => .raised (.requestException msg)
  | .ok data =>
    if optStrTruthy cfg.root_api_key && !(jGetD data "root").truthy then
      .raised (.authenticationError "Invalid root token.")
    else if optStrTruthy cfg.api_key && !(jGetD data "private").truthy then
      .raised (.authenticationError "Invalid private token.")
    else .ok { tokens_response := some (.obj data), tokens_verified := true }

/-- The `except (requests.RequestException, AuthenticationError)` clause at
line 71: exactly these two exception kinds are caught and logged. -/
def caughtByHandler : PyError → Bool
  | .requestException _ => true
  | .authenticationError _ => true
  | _ => false

/-- `DymoAPI.initialize_tokens` (lines 54-72): short-circuits on a truthy
cached response with `tokens_verified`; returns without any request when the
built token map is empty; otherwise posts `{"tokens": ...}` to
`{base_url}/v1/dvr/tokens` once and runs the `try/except` logic. -/
def initialize_tokens (cfg : Config) (base_url : String) (st : CacheState)
    (oracle : JValue → HttpOutcome) : InitResult :=
  if cacheHit st then
    { state := st, requests := [], usedCache := true, loggedError := none, raised := none }
  else if (buildTokens cfg).isEmpty then
    { state := st, requests := [], usedCache := false, loggedError := none, raised := none }
  else
    match verifyAttempt cfg (oracle (tokensBody cfg)) with
    | .ok st2 =>
      { state := st2,
        requests := [{ url := base_url ++ "/v1/dvr/tokens", body := tokensBody cfg }],
        usedCache := false, loggedError := none, raised := none }
    | .raised e =>
      if caughtByHandler e then
        { state := st,
          requests := [{ url := base_url ++ "/v1/dvr/tokens", body := tokensBody cfg }],
          usedCache := false,
          loggedError := some ("Token validation error: " ++ e.message),
          raised := none }
      else
        { state := st,
          requests := [{ url := base_url ++ "/v1/dvr/tokens", body := tokensBody cfg }],
          usedCache := false, loggedError := none, raised := some e }

/-- Modelled from the spec: `dymoapi.config.set_base_url`/`get_base_url` are
not under `src/`; per the spec there are two fixed base URLs, one for
`local` mode and one for the cloud endpoint (whose public prefix appears in
`src/tests/test_dymoapi.py`). -/
def get_base_url (isLocal : Bool) : String :=
  if isLocal then "http://localhost:3050" else "https://api.tpeoficial.com"

/-- The instance attributes set by `DymoAPI.__init__` (lines 38-44). -/
structure Client where
  root_api_key : Option String
  api_key : Option String
  server_email_config : Option JValue
  base_url : String

/-- Result of constructing a `DymoAPI` instance: the instance, the resulting
process-wide cache state, and the verification side effects. -/
structure ConstructResult where
  client : Client
  state : CacheState
  requests : List HttpRequest
  usedCache : Bool
  loggedError : Option String
  raised : Option PyError

/-- `DymoAPI.__init__` (lines 15-46): stores the credentials and
configuration, resolves the base URL, and calls `initialize_tokens` only when
`self.api_key` is truthy (`if self.api_key:` at line 46).
`check_for_updates()` (from `dymoapi.services.autoupload`, not under `src/`)
is a best-effort version check that per the spec never affects construction,
so it contributes nothing to the model. -/
def DymoAPI_init (cfg : Config) (st : CacheState) (oracle : JValue → HttpOutcome) :
    ConstructResult :=
  let client : Client :=
    { root_api_key := cfg.root_api_key, api_key := cfg.api_key,
      server_email_config := cfg.server_email_config,
      base_url := get_base_url cfg.localMode }
  if optStrTruthy cfg.api_key then
    let r := initialize_tokens cfg client.base_url st oracle
    { client := client, state := r.state, requests := r.requests,
      usedCache := r.usedCache, loggedError := r.loggedError, raised := r.raised }
  else
    { client := client, state := st, requests := [], usedCache := false,
      loggedError := none, raised := none }

/-- Tag for which pydantic response-model class a capability method passes its
payload to (`response_models.*Response(**payload)` in `dymoapi.py`). -/
inductive ResponseModel where
  | dataVerifierResponse
  | srngResponse
  | sendEmailResponse
deriving Repr, DecidableEq

/-- A constructed typed result: which response-model class was instantiated,
and the keyword-argument dictionary it received. -/
structure TypedResult where
  model : ResponseModel
  payload : List (String × JValue)

/-- Result of calling one capability method: the returned value (or the
exception it raised), the number of network dispatches performed by the
branch function, and the `logging.error` message if any. -/
structure CallResult where
  result : PyResult (Option TypedResult)
  requests : Nat
  loggedError : Option String

/-- The in-place mutation of `response["ip"]` at lines 101-104, applied to the
`ip` sub-dictionary: add `"_as"` (copy of `"as"`), add `"_class"` (copy of
`"class"`, raising `KeyError("class")` when absent), then `pop("as")` and
`pop("class")`. -/
def normalizeIpFields (ipf : List (String × JValue)) :
    PyResult (List (String × JValue)) :=
  match dictLookup ipf "as", dictLookup ipf "class" with
  | some a, some c =>
    match dictPop (dictSet (dictSet ipf "_as" a) "_class" c) "as" with
    | none => .raised (.keyError "as")
    | some ip3 =>
      match dictPop ip3 "class" with
      | none => .raised (.keyError "class")
      | some ip4 => .ok ip4
  | some _, none => .raised (.keyError "class")
  | none, _ => .raised (.keyError "as")

/-- The response normalization of `is_valid_data` (lines 100-104): when
`response.get("ip", {}).get("as")` is truthy, rewrite the `ip`
sub-dictionary via `normalizeIpFields`; when the `"ip"` value is present but
not a dictionary, `.get` on it raises `AttributeError`; otherwise the
response passes through unchanged. -/
def normalizeResponse (response : List (String × JValue)) :
    PyResult (List (String × JValue)) :=
  match (dictLookup response "ip").getD (.obj []) with
  | .obj ipf =>
    if (jGetD ipf "as").truthy then
      match normalizeIpFields ipf with
      | .ok ipf2 => .ok (dictSet response "ip" (.obj ipf2))
      | .raised e => .raised e
    else .ok response
  | _ => .raised (.attributeError "object has no attribute get")

/-- `DymoAPI._get_function` returns `None` for a private module when
`self.api_key is None` (line 49, after `logging.error("Invalid private
token.")`); the capability methods then call that `None`, which raises
`TypeError: NoneType object is not callable` before any request is sent. -/
def noneCallError : PyError := .typeError "NoneType object is not callable"

/-- `DymoAPI.is_valid_data` (lines 74-105): dispatches the private
`is_valid_data` branch function (its raw returned payload is the `oracle`
argument), normalizes the `ip` field names, and passes the result to
`DataVerifierResponse(**response)`.  When `api_key is None`,
`_get_function` logs and returns `None`, and calling it raises. -/
def is_valid_data (client : Client) (oracle : List (String × JValue)) : CallResult :=
  if client.api_key.isNone then
    { result := .raised noneCallError, requests := 0,
      loggedError := some "Invalid private token." }
  else
    match normalizeResponse oracle with
    | .raised e => { result := .raised e, requests := 1, loggedError := none }
    | .ok normalized =>
      { result := .ok (some { model := .dataVerifierResponse, payload := normalized }),
        requests := 1, loggedError := none }

/-- `DymoAPI.get_random` (lines 143-166): dispatches the private `get_random`
branch function and passes its raw payload, unchanged, to
`response_models.DataVerifierResponse(**...)` (line 166) — not to
`SRNGResponse`, despite the method's return annotation. -/
def get_random (client : Client) (data : List (String × JValue))
    (oracle : List (String × JValue)) : CallResult :=
  if client.api_key.isNone then
    { result := .raised noneCallError, requests := 0,
      loggedError := some "Invalid private token." }
  else
    { result := .ok (some { model := .dataVerifierResponse, payload := oracle }),
      requests := 1, loggedError := none }

/-- `DymoAPI.send_email` (lines 107-141): when neither `server_email_config`
nor `root_api_key` is truthy, logs a configuration error and returns `None`
without dispatching (line 140); otherwise dispatches the private
`send_email` branch function and passes its raw payload to
`response_models.DataVerifierResponse(**...)` (line 141) — not to
`SendEmailResponse`, despite the method's return annotation. -/
def send_email (client : Client) (data : List (String × JValue))
    (oracle : List (String × JValue)) : CallResult :=
  if !(optJTruthy client.server_email_config) && !(optStrTruthy client.root_api_key) then
    { result := .ok none, requests := 0,
      loggedError := some "You must configure the email client settings." }
  else if client.api_key.isNone then
    { result := .raised noneCallError, requests := 0,
      loggedError := some "Invalid private token." }
  else
    { result := .ok (some { model := .dataVerifierResponse, payload := oracle }),
      requests := 1, loggedError := none }

@[simp] theorem dictLookup_nil (k : String) : dictLookup [] k = none := rfl

@[simp] theorem dictLookup_cons (k2 : String) (w : JValue)
    (rest : List (String × JValue)) (k : String) :
    dictLookup ((k2, w) :: rest) k = if k2 == k then some w else dictLookup rest k := rfl

theorem dictLookup_map_set_self (k : String) (v : JValue) :
    ∀ d : List (String × JValue), (dictLookup d k).isSome →
      dictLookup (d.map (fun p => if p.1 == k then (k, v) else p)) k = some v := by
  intro d
  induction d with
  | nil => intro h; simp at h
  | cons p rest ih =>
    obtain ⟨k2, w⟩ := p
    intro h
    by_cases hk : k2 = k
    · subst hk
      simp
    · have hb : (k2 == k) = false := beq_false_of_ne hk
      simp only [dictLookup_cons, hb, Bool.false_eq_true, if_false] at h
      simp only [List.map_cons, hb, Bool.false_eq_true, if_false, dictLookup_cons]
      exact ih h

theorem dictLookup_append_single_self (k : String) (v : JValue) :
    ∀ d : List (String × JValue), dictLookup d k = none →
      dictLookup (d ++ [(k, v)]) k = some v := by
  intro d
  induction d with
  | nil => intro _; simp
  | cons p rest ih =>
    obtain ⟨k2, w⟩ := p
    intro h
    by_cases hk : k2 = k
    · subst hk; simp at h
    · have hb : (k2 == k) = false := beq_false_of_ne hk
      simp only [dictLookup_cons, hb, Bool.false_eq_true, if_false] at h
      simp only [List.cons_append, dictLookup_cons, hb, Bool.false_eq_true, if_false]
      exact ih h

theorem dictLookup_set_self (d : List (String × JValue)) (k : String) (v : JValue) :
    dictLookup (dictSet d k v) k = some v := by
  unfold dictSet
  by_cases h : (dictLookup d k).isSome
  · rw [if_pos h]; exact dictLookup_map_set_self k v d h
  · rw [if_neg h]
    exact dictLookup_append_single_self k v d (Option.not_isSome_iff_eq_none.mp h)

theorem dictLookup_map_set_ne (k kx : String) (v : JValue) (hne : kx ≠ k) :
    ∀ d : List (String × JValue),
      dictLookup (d.map (fun p => if p.1 == k then (k, v) else p)) kx
        = dictLookup d kx := by
  intro d
  induction d with
  | nil => rfl
  | cons p rest ih =>
    obtain ⟨k2, w⟩ := p
    by_cases hk : k2 = k
    · subst hk
      have hb : (k2 == kx) = false := beq_false_of_ne (Ne.symm hne)
      simp only [List.map_cons, beq_self_eq_true, if_true, dictLookup_cons, hb,
        Bool.false_eq_true, if_false]
      exact ih
    · have hb : (k2 == k) = false := beq_false_of_ne hk
      simp only [List.map_cons, hb, Bool.false_eq_true, if_false, dictLookup_cons]
      by_cases hk2 : k2 = kx
      · simp [hk2]
      · have hb2 : (k2 == kx) = false := beq_false_of_ne hk2
        simp only [hb2, Bool.false_eq_true, if_false]
        exact ih

theorem dictLookup_append_single_ne (k kx : String) (v : JValue) (hne : kx ≠ k) :
    ∀ d : List (String × JValue),
      dictLookup (d ++ [(k, v)]) kx = dictLookup d kx := by
  intro d
  induction d with
  | nil =>
    have hb : (k == kx) = false := beq_false_of_ne (Ne.symm hne)
    simp [hb]
  | cons p rest ih =>
    obtain ⟨k2, w⟩ := p
    by_cases hk2 : k2 = kx
    · subst hk2; simp
    · have hb2 : (k2 == kx) = false := beq_false_of_ne hk2
      simp only [List.cons_append, dictLookup_cons, hb2, Bool.false_eq_true, if_false]
      exact ih

theorem dictLookup_set_ne (d : List (String × JValue)) (k kx : String) (v : JValue)
    (hne : kx ≠ k) :
    dictLookup (dictSet d k v) kx = dictLookup d kx := by
  unfold dictSet
  by_cases h : (dictLookup d k).isSome
  · rw [if_pos h]; exact dictLookup_map_set_ne k kx v hne d
  · rw [if_neg h]; exact dictLookup_append_single_ne k kx v hne d

theorem dictLookup_filterKey_self (k : String) :
    ∀ d : List (String × JValue),
      dictLookup (d.filter (fun p => !(p.1 == k))) k = none := by
  intro d
  induction d with
  | nil => rfl
  | cons p rest ih =>
    obtain ⟨k2, w⟩ := p
    by_cases hk : k2 = k
    · subst hk
      simp only [List.filter_cons, beq_self_eq_true, Bool.not_true, Bool.false_eq_true,
        if_false]
      exact ih
    · have hb : (k2 == k) = false := beq_false_of_ne hk
      simp only [List.filter_cons, hb, Bool.not_false, if_true, dictLookup_cons,
        Bool.false_eq_true, if_false]
      exact ih

theorem dictLookup_filterKey_ne (k kx : String) (hne : kx ≠ k) :
    ∀ d : List (String × JValue),
      dictLookup (d.filter (fun p => !(p.1 == k))) kx = dictLookup d kx := by
  intro d
  induction d with
  | nil => rfl
  | cons p rest ih =>
    obtain ⟨k2, w⟩ := p
    by_cases hk : k2 = k
    · subst hk
      have hb : (k2 == kx) = false := beq_false_of_ne (Ne.symm hne)
      simp only [List.filter_cons, beq_self_eq_true, Bool.not_true, Bool.false_eq_true,
        if_false, dictLookup_cons, hb]
      exact ih
    · have hb : (k2 == k) = false := beq_false_of_ne hk
      simp only [List.filter_cons, hb, Bool.not_false, if_true, dictLookup_cons]
      by_cases hk2 : k2 = kx
      · simp [hk2]
      · have hb2 : (k2 == kx) = false := beq_false_of_ne hk2
        simp only [hb2, Bool.false_eq_true, if_false]
        exact ih

theorem dictPop_of_isSome (d : List (String × JValue)) (k : String)
    (h : (dictLookup d k).isSome) :
    dictPop d k = some (d.filter (fun p => !(p.1 == k))) := by
  cases hl : dictLookup d k with
  | none => rw [hl] at h; simp at h
  | some v => simp [dictPop, hl]

theorem normalizeIpFields_spec (ipf : List (String × JValue)) (a c : JValue)
    (ha : dictLookup ipf "as" = some a) (hc : dictLookup ipf "class" = some c) :
    ∃ ipf2, normalizeIpFields ipf = .ok ipf2 ∧
      dictLookup ipf2 "_as" = some a ∧ dictLookup ipf2 "_class" = some c ∧
      dictLookup ipf2 "as" = none ∧ dictLookup ipf2 "class" = none := by
  have h1 : dictLookup (dictSet (dictSet ipf "_as" a) "_class" c) "as" = some a := by
    rw [dictLookup_set_ne _ _ _ _ (by decide), dictLookup_set_ne _ _ _ _ (by decide)]
    exact ha
  have hpop1 := dictPop_of_isSome (dictSet (dictSet ipf "_as" a) "_class" c) "as"
    (by rw [h1]; rfl)
  have h2 : dictLookup ((dictSet (dictSet ipf "_as" a) "_class" c).filter
      (fun p => !(p.1 == "as"))) "class" = some c := by
    rw [dictLookup_filterKey_ne _ _ (by decide),
      dictLookup_set_ne _ _ _ _ (by decide), dictLookup_set_ne _ _ _ _ (by decide)]
    exact hc
  have hpop2 := dictPop_of_isSome ((dictSet (dictSet ipf "_as" a) "_class" c).filter
      (fun p => !(p.1 == "as"))) "class" (by rw [h2]; rfl)
  refine ⟨((dictSet (dictSet ipf "_as" a) "_class" c).filter
      (fun p => !(p.1 == "as"))).filter (fun p => !(p.1 == "class")),
    ?_, ?_, ?_, ?_, ?_⟩
  · simp only [normalizeIpFields, ha, hc, hpop1, hpop2]
  · rw [dictLookup_filterKey_ne _ _ (by decide), dictLookup_filterKey_ne _ _ (by decide),
      dictLookup_set_ne _ _ _ _ (by decide), dictLookup_set_self]
  · rw [dictLookup_filterKey_ne _ _ (by decide), dictLookup_filterKey_ne _ _ (by decide),
      dictLookup_set_self]
  · rw [dictLookup_filterKey_ne _ _ (by decide), dictLookup_filterKey_self]
  · rw [dictLookup_filterKey_self]

theorem buildTokens_isEmpty_iff (cfg : Config) :
    (buildTokens cfg).isEmpty
      = (!optStrTruthy cfg.root_api_key && !optStrTruthy cfg.api_key) := by
  unfold buildTokens
  cases hr : optStrTruthy cfg.root_api_key <;>
    cases ha : optStrTruthy cfg.api_key <;> simp

theorem verifyAttempt_raised_caught (cfg : Config) (out : HttpOutcome) (e : PyError)
    (h : verifyAttempt cfg out = .raised e) : caughtByHandler e = true := by
  cases out with
  | transportError m =>
    simp only [verifyAttempt] at h
    injection h with h2
    subst h2
    rfl
  | ok data =>
    simp only [verifyAttempt] at h
    split at h
    · injection h with h2; subst h2; rfl
    · split at h
      · injection h with h2; subst h2; rfl
      · exact absurd h (by simp)

theorem verifyAttempt_ok_cacheHit (cfg : Config) (out : HttpOutcome) (st2 : CacheState)
    (hne : (buildTokens cfg).isEmpty = false)
    (h : verifyAttempt cfg out = .ok st2) : cacheHit st2 = true := by
  cases out with
  | transportError m => simp [verifyAttempt] at h
  | ok data =>
    simp only [verifyAttempt] at h
    split at h
    · exact absurd h (by simp)
    · split at h
      · exact absurd h (by simp)
      · rename_i hroot hpriv
        injection h with h2
        subst h2
        simp only [cacheHit, JValue.truthy, Bool.and_true]
        cases data with
        | cons p rest => simp
        | nil =>
          rw [buildTokens_isEmpty_iff] at hne
          cases hr : optStrTruthy cfg.root_api_key with
          | true =>
            exact absurd (by simp [hr, jGetD, JValue.truthy]) hroot
          | false =>
            have hA : optStrTruthy cfg.api_key = true := by
              rw [hr] at hne; simpa using hne
            exact absurd (by simp [hA, jGetD, JValue.truthy]) hpriv

theorem initialize_tokens_cacheHit_run (cfg : Config) (u : String) (st : CacheState)
    (o : JValue → HttpOutcome) (h : cacheHit st = true) :
    initialize_tokens cfg u st o
      = { state := st, requests := [], usedCache := true,
          loggedError := none, raised := none } := by
  simp [initialize_tokens, h]

theorem initialize_tokens_cases (cfg : Config) (u : String) (st : CacheState)
    (o : JValue → HttpOutcome) (h : cacheHit st = false) :
    ((buildTokens cfg).isEmpty = true ∧
      initialize_tokens cfg u st o
        = { state := st, requests := [], usedCache := false,
            loggedError := none, raised := none })
    ∨ (∃ st2, (buildTokens cfg).isEmpty = false ∧
        verifyAttempt cfg (o (tokensBody cfg)) = .ok st2 ∧
        initialize_tokens cfg u st o
          = { state := st2,
              requests := [{ url := u ++ "/v1/dvr/tokens", body := tokensBody cfg }],
              usedCache := false, loggedError := none, raised := none })
    ∨ (∃ e, (buildTokens cfg).isEmpty = false ∧
        verifyAttempt cfg (o (tokensBody cfg)) = .raised e ∧
        initialize_tokens cfg u st o
          = { state := st,
              requests := [{ url := u ++ "/v1/dvr/tokens", body := tokensBody cfg }],
              usedCache := false,
              loggedError := some ("Token validation error: " ++ e.message),
              raised := none }) := by
  cases hE : (buildTokens cfg).isEmpty with
  | true =>
    left
    exact ⟨rfl, by simp [initialize_tokens, h, hE]⟩
  | false =>
    right
    cases hA : verifyAttempt cfg (o (tokensBody cfg)) with
    | ok st2 =>
      left
      exact ⟨st2, rfl, rfl, by simp [initialize_tokens, h, hE, hA]⟩
    | raised e =>
      right
      have hcaught := verifyAttempt_raised_caught cfg _ e hA
      exact ⟨e, rfl, rfl, by simp [initialize_tokens, h, hE, hA, hcaught]⟩

theorem initialize_tokens_verified_cacheHit (cfg : Config) (u : String) (st : CacheState)
    (o : JValue → HttpOutcome) (h0 : st.tokens_verified = false)
    (h : (initialize_tokens cfg u st o).state.tokens_verified = true) :
    cacheHit (initialize_tokens cfg u st o).state = true := by
  have hmiss : cacheHit st = false := by simp [cacheHit, h0]
  rcases initialize_tokens_cases cfg u st o hmiss with
    ⟨_, hrun⟩ | ⟨st2, hne, hA, hrun⟩ | ⟨e, hne, hA, hrun⟩
  · rw [hrun] at h; exact absurd h (by simp [h0])
  · rw [hrun]
    exact verifyAttempt_ok_cacheHit cfg _ st2 hne hA
  · rw [hrun] at h; exact absurd h (by simp [h0])

/-- C1: once the token cache holds a verified record, a subsequent call to
`initialize_tokens` returns immediately from the cache without making a
network call, so calling it twice in the same process performs exactly one
network verification call total. -/
theorem ensure_verified_twice_single_network_call (cfg : Config) (u : String)
    (o1 o2 : JValue → HttpOutcome)
    (h : (initialize_tokens cfg u initialCacheState o1).state.tokens_verified = true) :
    (initialize_tokens cfg u initialCacheState o1).requests.length = 1 ∧
    (initialize_tokens cfg u
      (initialize_tokens cfg u initialCacheState o1).state o2).requests = [] ∧
    (initialize_tokens cfg u
      (initialize_tokens cfg u initialCacheState o1).state o2).usedCache = true := by
  have hmiss : cacheHit initialCacheState = false := rfl
  have hhit := initialize_tokens_verified_cacheHit cfg u initialCacheState o1 rfl h
  have hrun2 := initialize_tokens_cacheHit_run cfg u
    (initialize_tokens cfg u initialCacheState o1).state o2 hhit
  refine ⟨?_, ?_, ?_⟩
  · rcases initialize_tokens_cases cfg u initialCacheState o1 hmiss with
      ⟨_, hrun⟩ | ⟨st2, _, _, hrun⟩ | ⟨e, _, _, hrun⟩
    · rw [hrun] at h; exact absurd h (by simp [initialCacheState])
    · simp [hrun]
    · simp [hrun]
  · rw [hrun2]
  · rw [hrun2]

theorem ensure_verified_twice_single_network_call_witness :
    ((initialize_tokens
        { root_api_key := some "rk", api_key := some "ak",
          server_email_config := none, localMode := false }
        "https://api.tpeoficial.com" initialCacheState
        (fun _ => .ok [("root", .bool true), ("private", .bool true)])).state.tokens_verified
      = true) ∧
    ((initialize_tokens
        { root_api_key := some "rk", api_key := some "ak",
          server_email_config := none, localMode := false }
        "https://api.tpeoficial.com" initialCacheState
        (fun _ => .ok [("root", .bool true), ("private", .bool true)])).requests.length = 1 ∧
      (initialize_tokens
        { root_api_key := some "rk", api_key := some "ak",
          server_email_config := none, localMode := false }
        "https://api.tpeoficial.com"
        (initialize_tokens
          { root_api_key := some "rk", api_key := some "ak",
            server_email_config := none, localMode := false }
          "https://api.tpeoficial.com" initialCacheState
          (fun _ => .ok [("root", .bool true), ("private", .bool true)])).state
        (fun _ => .transportError "network down")).requests = [] ∧
      (initialize_tokens
        { root_api_key := some "rk", api_key := some "ak",
          server_email_config := none, localMode := false }
        "https://api.tpeoficial.com"
        (initialize_tokens
          { root_api_key := some "rk", api_key := some "ak",
            server_email_config := none, localMode := false }
          "https://api.tpeoficial.com" initialCacheState
          (fun _ => .ok [("root", .bool true), ("private", .bool true)])).state
        (fun _ => .transportError "network down")).usedCache = true) := by
  have h : (initialize_tokens
      { root_api_key := some "rk", api_key := some "ak",
        server_email_config := none, localMode := false }
      "https://api.tpeoficial.com" initialCacheState
      (fun _ => .ok [("root", .bool true), ("private", .bool true)])).state.tokens_verified
      = true := by decide
  exact ⟨h, ensure_verified_twice_single_network_call _ _ _ _ h⟩

/-- C3: every failure during token verification that the spec enumerates
(transport failure or authentication rejection) is caught by the
`except` clause and logged, never propagated: neither `initialize_tokens`
nor constructing a client ever raises, and whenever the verification
attempt actually performed fails with such an error, the result carries the
`logging.error` message `"Token validation error: <exception>"`. -/
theorem token_verification_failures_never_propagate (cfg : Config) (u : String)
    (st : CacheState) (o : JValue → HttpOutcome) :
    (initialize_tokens cfg u st o).raised = none ∧
    (DymoAPI_init cfg st o).raised = none ∧
    (∀ e : PyError, verifyAttempt cfg (o (tokensBody cfg)) = .raised e →
      cacheHit st = false → (buildTokens cfg).isEmpty = false →
      (initialize_tokens cfg u st o).loggedError
        = some ("Token validation error: " ++ e.message)) := by
  have hinit : ∀ u2, (initialize_tokens cfg u2 st o).raised = none := by
    intro u2
    cases hc : cacheHit st with
    | true => rw [initialize_tokens_cacheHit_run cfg u2 st o hc]
    | false =>
      rcases initialize_tokens_cases cfg u2 st o hc with
        ⟨_, hrun⟩ | ⟨st2, _, _, hrun⟩ | ⟨e, _, _, hrun⟩ <;> rw [hrun]
  refine ⟨hinit u, ?_, ?_⟩
  · cases ha : optStrTruthy cfg.api_key with
    | true => simp [DymoAPI_init, ha, hinit]
    | false => simp [DymoAPI_init, ha]
  · intro e hA hmiss hne
    rcases initialize_tokens_cases cfg u st o hmiss with
      ⟨hE, _⟩ | ⟨st2, _, hA2, _⟩ | ⟨e2, _, hA2, hrun⟩
    · rw [hE] at hne; cases hne
    · rw [hA] at hA2; exact PyResult.noConfusion hA2
    · rw [hA] at hA2
      injection hA2 with h2
      rw [hrun, h2]

theorem token_verification_failures_never_propagate_witness :
    (initialize_tokens { root_api_key := none, api_key := some "ak", server_email_config := none, localMode := false } "https://api.tpeoficial.com" initialCacheState (fun _ => .transportError "connection refused")).raised = none ∧
    (DymoAPI_init { root_api_key := none, api_key := some "ak", server_email_config := none, localMode := false } initialCacheState (fun _ => .transportError "connection refused")).raised = none ∧
    (verifyAttempt { root_api_key := none, api_key := some "ak", server_email_config := none, localMode := false } ((fun _ => HttpOutcome.transportError "connection refused") (tokensBody { root_api_key := none, api_key := some "ak", server_email_config := none, localMode := false })) = .raised (.requestException "connection refused") ∧
     cacheHit initialCacheState = false ∧
     (buildTokens { root_api_key := none, api_key := some "ak", server_email_config := none, localMode := false }).isEmpty = false ∧
     (initialize_tokens { root_api_key := none, api_key := some "ak", server_email_config := none, localMode := false } "https://api.tpeoficial.com" initialCacheState (fun _ => .transportError "connection refused")).loggedError
       = some ("Token validation error: "
           ++ (PyError.requestException "connection refused").message)) := by
  have h := token_verification_failures_never_propagate
    { root_api_key := none, api_key := some "ak", server_email_config := none, localMode := false }
    "https://api.tpeoficial.com" initialCacheState
    (fun _ => .transportError "connection refused")
  exact ⟨h.1, h.2.1, rfl, rfl, rfl, h.2.2 (.requestException "connection refused") rfl rfl rfl⟩

/-- C6: starting from an unverified cache state, a failing verification leaves
the cache state exactly unchanged, and a successful verification is terminal:
once `tokens_verified` is set, every later call returns the cached record and
changes nothing. -/
theorem initialize_tokens_state_transition_atomic (cfg : Config) (u : String)
    (st : CacheState) (o : JValue → HttpOutcome) (h0 : st.tokens_verified = false) :
    ((initialize_tokens cfg u st o).state.tokens_verified = false →
      (initialize_tokens cfg u st o).state = st) ∧
    ((initialize_tokens cfg u st o).state.tokens_verified = true →
      ∀ o2 : JValue → HttpOutcome,
        initialize_tokens cfg u (initialize_tokens cfg u st o).state o2
          = { state := (initialize_tokens cfg u st o).state, requests := [],
              usedCache := true, loggedError := none, raised := none }) := by
  have hmiss : cacheHit st = false := by simp [cacheHit, h0]
  constructor
  · intro hv
    rcases initialize_tokens_cases cfg u st o hmiss with
      ⟨_, hrun⟩ | ⟨st2, hne, hA, hrun⟩ | ⟨e, _, _, hrun⟩
    · rw [hrun]
    · exfalso
      have hch := verifyAttempt_ok_cacheHit cfg _ st2 hne hA
      rw [hrun] at hv
      have hv2 : st2.tokens_verified = false := hv
      simp [cacheHit, hv2] at hch
    · rw [hrun]
  · intro hv o2
    exact initialize_tokens_cacheHit_run cfg u _ o2
      (initialize_tokens_verified_cacheHit cfg u st o h0 hv)

theorem initialize_tokens_state_transition_atomic_witness :
    ({ tokens_response := none, tokens_verified := false } : CacheState).tokens_verified
      = false ∧
    (((initialize_tokens
        { root_api_key := none, api_key := some "ak",
          server_email_config := none, localMode := true }
        "http://localhost:3050"
        { tokens_response := none, tokens_verified := false }
        (fun _ => .transportError "connection refused")).state.tokens_verified = false →
      (initialize_tokens
        { root_api_key := none, api_key := some "ak",
          server_email_config := none, localMode := true }
        "http://localhost:3050"
        { tokens_response := none, tokens_verified := false }
        (fun _ => .transportError "connection refused")).state
        = { tokens_response := none, tokens_verified := false }) ∧
    ((initialize_tokens
        { root_api_key := none, api_key := some "ak",
          server_email_config := none, localMode := true }
        "http://localhost:3050"
        { tokens_response := none, tokens_verified := false }
        (fun _ => .transportError "connection refused")).state.tokens_verified = true →
      ∀ o2 : JValue → HttpOutcome,
        initialize_tokens
          { root_api_key := none, api_key := some "ak",
            server_email_config := none, localMode := true }
          "http://localhost:3050"
          (initialize_tokens
            { root_api_key := none, api_key := some "ak",
              server_email_config := none, localMode := true }
            "http://localhost:3050"
            { tokens_response := none, tokens_verified := false }
            (fun _ => .transportError "connection refused")).state o2
          = { state := (initialize_tokens
                { root_api_key := none, api_key := some "ak",
                  server_email_config := none, localMode := true }
                "http://localhost:3050"
                { tokens_response := none, tokens_verified := false }
                (fun _ => .transportError "connection refused")).state, requests := [],
              usedCache := true, loggedError := none, raised := none })) :=
  ⟨rfl, initialize_tokens_state_transition_atomic _ _ _ _ rfl⟩

/-- C7: when verification is performed from a cache-miss state, exactly one
POST is sent to `{base_url}/v1/dvr/tokens` with body `{"tokens": map}`; the
map carries `"root" : "Bearer <root>"` exactly when a root credential is
configured and `"private" : "Bearer <api>"` exactly when an API credential is
configured, and when neither is configured the map is empty and no request is
sent at all. -/
theorem verification_request_shape (cfg : Config) (u : String) (st : CacheState)
    (o : JValue → HttpOutcome) (h : cacheHit st = false) :
    ((buildTokens cfg).isEmpty = true ↔
      (optStrTruthy cfg.root_api_key = false ∧ optStrTruthy cfg.api_key = false)) ∧
    ((buildTokens cfg).isEmpty = true → (initialize_tokens cfg u st o).requests = []) ∧
    ((buildTokens cfg).isEmpty = false →
      (initialize_tokens cfg u st o).requests
        = [{ url := u ++ "/v1/dvr/tokens",
             body := .obj [("tokens", .obj (buildTokens cfg))] }]) ∧
    dictLookup (buildTokens cfg) "root"
      = (if optStrTruthy cfg.root_api_key then
          some (.str ("Bearer " ++ cfg.root_api_key.getD "")) else none) ∧
    dictLookup (buildTokens cfg) "private"
      = (if optStrTruthy cfg.api_key then
          some (.str ("Bearer " ++ cfg.api_key.getD "")) else none) := by
  refine ⟨?_, ?_, ?_, ?_, ?_⟩
  · rw [buildTokens_isEmpty_iff]
    cases hr : optStrTruthy cfg.root_api_key <;>
      cases ha : optStrTruthy cfg.api_key <;> simp
  · intro hE
    rcases initialize_tokens_cases cfg u st o h with
      ⟨_, hrun⟩ | ⟨st2, hne, _, hrun⟩ | ⟨e, hne, _, hrun⟩
    · rw [hrun]
    · rw [hE] at hne; cases hne
    · rw [hE] at hne; cases hne
  · intro hE
    rcases initialize_tokens_cases cfg u st o h with
      ⟨hE2, hrun⟩ | ⟨st2, _, _, hrun⟩ | ⟨e, _, _, hrun⟩
    · rw [hE2] at hE; cases hE
    · simp [hrun, tokensBody]
    · simp [hrun, tokensBody]
  · cases hr : optStrTruthy cfg.root_api_key <;>
      cases ha : optStrTruthy cfg.api_key <;>
      simp [buildTokens, hr, ha]
  · cases hr : optStrTruthy cfg.root_api_key <;>
      cases ha : optStrTruthy cfg.api_key <;>
      simp [buildTokens, hr, ha]

theorem verification_request_shape_witness :
    cacheHit initialCacheState = false ∧
    (((buildTokens { root_api_key := some "rk", api_key := none, server_email_config := none, localMode := false }).isEmpty = true ↔
      (optStrTruthy (some "rk") = false ∧ optStrTruthy (none : Option String) = false)) ∧
    ((buildTokens { root_api_key := some "rk", api_key := none, server_email_config := none, localMode := false }).isEmpty = true →
      (initialize_tokens { root_api_key := some "rk", api_key := none, server_email_config := none, localMode := false } "https://api.tpeoficial.com" initialCacheState (fun _ => .ok [("root", .bool true)])).requests = []) ∧
    ((buildTokens { root_api_key := some "rk", api_key := none, server_email_config := none, localMode := false }).isEmpty = false →
      (initialize_tokens { root_api_key := some "rk", api_key := none, server_email_config := none, localMode := false } "https://api.tpeoficial.com" initialCacheState (fun _ => .ok [("root", .bool true)])).requests
        = [{ url := "https://api.tpeoficial.com" ++ "/v1/dvr/tokens",
             body := .obj [("tokens", .obj (buildTokens { root_api_key := some "rk", api_key := none, server_email_config := none, localMode := false }))] }]) ∧
    dictLookup (buildTokens { root_api_key := some "rk", api_key := none, server_email_config := none, localMode := false }) "root"
      = (if optStrTruthy (some "rk") then
          some (.str ("Bearer " ++ (some "rk").getD "")) else none) ∧
    dictLookup (buildTokens { root_api_key := some "rk", api_key := none, server_email_config := none, localMode := false }) "private"
      = (if optStrTruthy (none : Option String) then
          some (.str ("Bearer " ++ (none : Option String).getD "")) else none)) :=
  ⟨rfl, verification_request_shape _ _ _ _ rfl⟩

theorem DymoAPI_init_run_eq (cfg : Config) (st : CacheState) (o : JValue → HttpOutcome)
    (h : optStrTruthy cfg.api_key = true) :
    DymoAPI_init cfg st o
      = { client := { root_api_key := cfg.root_api_key, api_key := cfg.api_key,
                      server_email_config := cfg.server_email_config,
                      base_url := get_base_url cfg.localMode },
          state := (initialize_tokens cfg (get_base_url cfg.localMode) st o).state,
          requests := (initialize_tokens cfg (get_base_url cfg.localMode) st o).requests,
          usedCache := (initialize_tokens cfg (get_base_url cfg.localMode) st o).usedCache,
          loggedError := (initialize_tokens cfg (get_base_url cfg.localMode) st o).loggedError,
          raised := (initialize_tokens cfg (get_base_url cfg.localMode) st o).raised } := by
  simp [DymoAPI_init, h]

/-- C9: the verification cache is a class-level slot shared by all client
instances: after one client's construction leaves the cache verified,
constructing a second client with a different credential set (and a truthy
API key) performs no verification request, reports the cached-tokens message,
and leaves the first client's cached state untouched. -/
theorem token_cache_shared_across_instances (cfg1 cfg2 : Config)
    (o1 o2 : JValue → HttpOutcome)
    (h1 : (DymoAPI_init cfg1 initialCacheState o1).state.tokens_verified = true)
    (h2 : optStrTruthy cfg2.api_key = true)
    (hdiff : cfg1.api_key ≠ cfg2.api_key) :
    (DymoAPI_init cfg2 (DymoAPI_init cfg1 initialCacheState o1).state o2).requests = [] ∧
    (DymoAPI_init cfg2 (DymoAPI_init cfg1 initialCacheState o1).state o2).usedCache = true ∧
    (DymoAPI_init cfg2 (DymoAPI_init cfg1 initialCacheState o1).state o2).state
      = (DymoAPI_init cfg1 initialCacheState o1).state := by
  have hhit : cacheHit (DymoAPI_init cfg1 initialCacheState o1).state = true := by
    cases ha : optStrTruthy cfg1.api_key with
    | false =>
      exfalso
      have hst : (DymoAPI_init cfg1 initialCacheState o1).state = initialCacheState := by
        simp [DymoAPI_init, ha]
      rw [hst] at h1
      exact absurd h1 (by simp [initialCacheState])
    | true =>
      have hst : (DymoAPI_init cfg1 initialCacheState o1).state
          = (initialize_tokens cfg1 (get_base_url cfg1.localMode)
              initialCacheState o1).state := by
        simp [DymoAPI_init, ha]
      rw [hst] at h1 ⊢
      exact initialize_tokens_verified_cacheHit _ _ _ _ rfl h1
  have hrun := initialize_tokens_cacheHit_run cfg2 (get_base_url cfg2.localMode)
      (DymoAPI_init cfg1 initialCacheState o1).state o2 hhit
  refine ⟨?_, ?_, ?_⟩ <;>
    rw [DymoAPI_init_run_eq cfg2 _ o2 h2] <;> simp [hrun]

theorem token_cache_shared_across_instances_witness :
    ((DymoAPI_init { root_api_key := none, api_key := some "key-one", server_email_config := none, localMode := false } initialCacheState (fun _ => .ok [("private", .bool true)])).state.tokens_verified = true) ∧
    (optStrTruthy (some "key-two") = true) ∧
    (({ root_api_key := none, api_key := some "key-one", server_email_config := none, localMode := false } : Config).api_key
      ≠ ({ root_api_key := some "rt", api_key := some "key-two", server_email_config := none, localMode := true } : Config).api_key) ∧
    ((DymoAPI_init { root_api_key := some "rt", api_key := some "key-two", server_email_config := none, localMode := true } (DymoAPI_init { root_api_key := none, api_key := some "key-one", server_email_config := none, localMode := false } initialCacheState (fun _ => .ok [("private", .bool true)])).state (fun _ => .transportError "down")).requests = [] ∧
    (DymoAPI_init { root_api_key := some "rt", api_key := some "key-two", server_email_config := none, localMode := true } (DymoAPI_init { root_api_key := none, api_key := some "key-one", server_email_config := none, localMode := false } initialCacheState (fun _ => .ok [("private", .bool true)])).state (fun _ => .transportError "down")).usedCache = true ∧
    (DymoAPI_init { root_api_key := some "rt", api_key := some "key-two", server_email_config := none, localMode := true } (DymoAPI_init { root_api_key := none, api_key := some "key-one", server_email_config := none, localMode := false } initialCacheState (fun _ => .ok [("private", .bool true)])).state (fun _ => .transportError "down")).state
      = (DymoAPI_init { root_api_key := none, api_key := some "key-one", server_email_config := none, localMode := false } initialCacheState (fun _ => .ok [("private", .bool true)])).state) := by
  have h1 : (DymoAPI_init { root_api_key := none, api_key := some "key-one", server_email_config := none, localMode := false } initialCacheState (fun _ => .ok [("private", .bool true)])).state.tokens_verified = true := by decide
  have hd : ({ root_api_key := none, api_key := some "key-one", server_email_config := none, localMode := false } : Config).api_key
      ≠ ({ root_api_key := some "rt", api_key := some "key-two", server_email_config := none, localMode := true } : Config).api_key := by decide
  exact ⟨h1, by decide, hd, token_cache_shared_across_instances _ _ _ _ h1 (by decide) hd⟩

/-- C8: a client configured with neither a root credential nor a local
email-transport configuration: `send_email` logs the configuration error and
returns `None` without dispatching, performing zero network calls. -/
theorem send_email_unconfigured_is_noop (client : Client)
    (data oracle : List (String × JValue))
    (h1 : client.server_email_config = none) (h2 : client.root_api_key = none) :
    send_email client data oracle
      = { result := .ok none, requests := 0,
          loggedError := some "You must configure the email client settings." } := by
  simp [send_email, h1, h2, optJTruthy, optStrTruthy]

theorem send_email_unconfigured_is_noop_witness :
    ({ root_api_key := none, api_key := some "ak", server_email_config := none, base_url := "https://api.tpeoficial.com" } : Client).server_email_config = none ∧
    ({ root_api_key := none, api_key := some "ak", server_email_config := none, base_url := "https://api.tpeoficial.com" } : Client).root_api_key = none ∧
    send_email { root_api_key := none, api_key := some "ak", server_email_config := none, base_url := "https://api.tpeoficial.com" } [("from", .str "a@b.co"), ("to", .str "c@d.eu")] [("status", .bool true)]
      = { result := .ok none, requests := 0,
          loggedError := some "You must configure the email client settings." } :=
  ⟨rfl, rfl, send_email_unconfigured_is_noop _ _ _ rfl rfl⟩

/-- C2 counterexample: with an absent API credential, calling `is_valid_data`
logs the error and sends no request, but the call raises a `TypeError`
(`_get_function` returned `None` and the method calls it) instead of
returning an absent result — so the claim that the call "returns an
absent/empty result rather than raising" is false at this input. -/
theorem private_call_without_api_key_raises_at_concrete_input :
    (is_valid_data { root_api_key := some "rk", api_key := none, server_email_config := none, base_url := "https://api.tpeoficial.com" } [("email", .str "test@example.com")]).result
      = .raised (.typeError "NoneType object is not callable") ∧
    (is_valid_data { root_api_key := some "rk", api_key := none, server_email_config := none, base_url := "https://api.tpeoficial.com" } [("email", .str "test@example.com")]).requests = 0 ∧
    (is_valid_data { root_api_key := some "rk", api_key := none, server_email_config := none, base_url := "https://api.tpeoficial.com" } [("email", .str "test@example.com")]).loggedError
      = some "Invalid private token." :=
  ⟨rfl, rfl, rfl⟩

/-- C2 amended: with an absent API credential, invoking a private capability
logs "Invalid private token." and never sends a network request, but the call
raises a `TypeError` (the dispatcher returns an absent function which the
capability method then calls) instead of returning an absent result; for
`send_email` this happens once the email configuration guard is passed. -/
theorem private_capability_without_api_key_logs_and_raises (client : Client)
    (data oracle : List (String × JValue)) (h : client.api_key = none) :
    (is_valid_data client oracle).result = .raised noneCallError ∧
    (is_valid_data client oracle).requests = 0 ∧
    (is_valid_data client oracle).loggedError = some "Invalid private token." ∧
    (get_random client data oracle).result = .raised noneCallError ∧
    (get_random client data oracle).requests = 0 ∧
    (get_random client data oracle).loggedError = some "Invalid private token." ∧
    (optJTruthy client.server_email_config = true →
      (send_email client data oracle).result = .raised noneCallError ∧
      (send_email client data oracle).requests = 0 ∧
      (send_email client data oracle).loggedError = some "Invalid private token.") := by
  have hn : client.api_key.isNone = true := by rw [h]; rfl
  refine ⟨by simp [is_valid_data, hn], by simp [is_valid_data, hn],
    by simp [is_valid_data, hn], by simp [get_random, hn], by simp [get_random, hn],
    by simp [get_random, hn], ?_⟩
  intro hc
  refine ⟨by simp [send_email, hn, hc], by simp [send_email, hn, hc],
    by simp [send_email, hn, hc]⟩

theorem private_capability_without_api_key_logs_and_raises_witness :
    ({ root_api_key := none, api_key := none, server_email_config := some (.obj [("host", .str "smtp.example.com")]), base_url := "https://api.tpeoficial.com" } : Client).api_key = none ∧
    ((is_valid_data { root_api_key := none, api_key := none, server_email_config := some (.obj [("host", .str "smtp.example.com")]), base_url := "https://api.tpeoficial.com" } [("ip", .str "1.2.3.4")]).result = .raised noneCallError ∧
    (is_valid_data { root_api_key := none, api_key := none, server_email_config := some (.obj [("host", .str "smtp.example.com")]), base_url := "https://api.tpeoficial.com" } [("ip", .str "1.2.3.4")]).requests = 0 ∧
    (is_valid_data { root_api_key := none, api_key := none, server_email_config := some (.obj [("host", .str "smtp.example.com")]), base_url := "https://api.tpeoficial.com" } [("ip", .str "1.2.3.4")]).loggedError = some "Invalid private token." ∧
    (get_random { root_api_key := none, api_key := none, server_email_config := some (.obj [("host", .str "smtp.example.com")]), base_url := "https://api.tpeoficial.com" } [("min", .num 1)] [("ip", .str "1.2.3.4")]).result = .raised noneCallError ∧
    (get_random { root_api_key := none, api_key := none, server_email_config := some (.obj [("host", .str "smtp.example.com")]), base_url := "https://api.tpeoficial.com" } [("min", .num 1)] [("ip", .str "1.2.3.4")]).requests = 0 ∧
    (get_random { root_api_key := none, api_key := none, server_email_config := some (.obj [("host", .str "smtp.example.com")]), base_url := "https://api.tpeoficial.com" } [("min", .num 1)] [("ip", .str "1.2.3.4")]).loggedError = some "Invalid private token." ∧
    (optJTruthy ({ root_api_key := none, api_key := none, server_email_config := some (.obj [("host", .str "smtp.example.com")]), base_url := "https://api.tpeoficial.com" } : Client).server_email_config = true →
      (send_email { root_api_key := none, api_key := none, server_email_config := some (.obj [("host", .str "smtp.example.com")]), base_url := "https://api.tpeoficial.com" } [("min", .num 1)] [("ip", .str "1.2.3.4")]).result = .raised noneCallError ∧
      (send_email { root_api_key := none, api_key := none, server_email_config := some (.obj [("host", .str "smtp.example.com")]), base_url := "https://api.tpeoficial.com" } [("min", .num 1)] [("ip", .str "1.2.3.4")]).requests = 0 ∧
      (send_email { root_api_key := none, api_key := none, server_email_config := some (.obj [("host", .str "smtp.example.com")]), base_url := "https://api.tpeoficial.com" } [("min", .num 1)] [("ip", .str "1.2.3.4")]).loggedError = some "Invalid private token.")) :=
  ⟨rfl, private_capability_without_api_key_logs_and_raises _ _ _ rfl⟩

/-- C5: `get_random` and `send_email` pass their raw payload, unchanged, to
the `DataVerifierResponse` constructor (lines 141 and 166), not to the
`SRNGResponse` / `SendEmailResponse` constructors their annotations and
docstrings declare: evaluating both methods at a concrete payload shows the
constructed model is `dataVerifierResponse`, which differs from
`srngResponse` and `sendEmailResponse`. -/
theorem get_random_and_send_email_construct_data_verifier_response :
    (get_random { root_api_key := some "rk", api_key := some "ak", server_email_config := none, base_url := "https://api.tpeoficial.com" } [("min", .num 1), ("max", .num 6)] [("values", .arr [.num 3]), ("executionTime", .num 5)]).result
      = .ok (some { model := .dataVerifierResponse, payload := [("values", .arr [.num 3]), ("executionTime", .num 5)] }) ∧
    (send_email { root_api_key := some "rk", api_key := some "ak", server_email_config := none, base_url := "https://api.tpeoficial.com" } [("from", .str "a@b.co")] [("status", .bool true)]).result
      = .ok (some { model := .dataVerifierResponse, payload := [("status", .bool true)] }) ∧
    ResponseModel.dataVerifierResponse ≠ ResponseModel.srngResponse ∧
    ResponseModel.dataVerifierResponse ≠ ResponseModel.sendEmailResponse :=
  ⟨rfl, rfl, by decide, by decide⟩

/-- C10: when the private data-verification payload has an `ip` object whose
`as` key is present and truthy but with no `class` key, `is_valid_data`
raises `KeyError("class")` instead of returning a normalized typed result:
the renaming step reads `class` unconditionally once `as` is truthy. -/
theorem is_valid_data_missing_class_key_raises (client : Client)
    (response ipf : List (String × JValue)) (a : JValue)
    (hapi : client.api_key.isNone = false)
    (hip : dictLookup response "ip" = some (.obj ipf))
    (ha : dictLookup ipf "as" = some a) (hat : a.truthy = true)
    (hc : dictLookup ipf "class" = none) :
    (is_valid_data client response).result = .raised (.keyError "class") := by
  have hguard : (jGetD ipf "as").truthy = true := by
    rw [jGetD, ha, Option.getD_some]; exact hat
  have hfields : normalizeIpFields ipf = .raised (.keyError "class") := by
    simp only [normalizeIpFields, ha, hc]
  have hnorm : normalizeResponse response = .raised (.keyError "class") := by
    simp only [normalizeResponse, hip, Option.getD_some, hguard, if_true, hfields]
  simp [is_valid_data, hapi, hnorm]

theorem is_valid_data_missing_class_key_raises_witness :
    ({ root_api_key := some "rk", api_key := some "ak", server_email_config := none, base_url := "https://api.tpeoficial.com" } : Client).api_key.isNone = false ∧
    dictLookup [("ip", .obj [("valid", .bool true), ("as", .str "AS15169 Google LLC")])] "ip"
      = some (.obj [("valid", .bool true), ("as", .str "AS15169 Google LLC")]) ∧
    dictLookup [("valid", JValue.bool true), ("as", JValue.str "AS15169 Google LLC")] "as"
      = some (.str "AS15169 Google LLC") ∧
    (JValue.str "AS15169 Google LLC").truthy = true ∧
    dictLookup [("valid", JValue.bool true), ("as", JValue.str "AS15169 Google LLC")] "class" = none ∧
    (is_valid_data { root_api_key := some "rk", api_key := some "ak", server_email_config := none, base_url := "https://api.tpeoficial.com" } [("ip", .obj [("valid", .bool true), ("as", .str "AS15169 Google LLC")])]).result
      = .raised (.keyError "class") :=
  ⟨rfl, rfl, rfl, rfl, rfl,
    is_valid_data_missing_class_key_raises _ _ _ _ rfl rfl rfl rfl rfl⟩

/-- C4 counterexample: a raw payload whose `ip` object contains both keys
`as` and `class`, but with a falsy `as` value (`None`): the guard
`response.get("ip", {}).get("as")` is falsy, so `is_valid_data` performs no
renaming — the result still contains `as` and `class` and contains no `_as` —
refuting the claim as stated for all payloads containing those keys. -/
theorem normalizer_skips_rename_on_falsy_as :
    (is_valid_data { root_api_key := some "rk", api_key := some "ak", server_email_config := none, base_url := "https://api.tpeoficial.com" } [("ip", .obj [("as", .null), ("class", .str "residential")])]).result
      = .ok (some { model := .dataVerifierResponse, payload := [("ip", .obj [("as", .null), ("class", .str "residential")])] }) ∧
    dictLookup [("as", JValue.null), ("class", JValue.str "residential")] "_as" = none ∧
    dictLookup [("as", JValue.null), ("class", JValue.str "residential")] "_class" = none ∧
    dictLookup [("as", JValue.null), ("class", JValue.str "residential")] "as" = some .null ∧
    dictLookup [("as", JValue.null), ("class", JValue.str "residential")] "class"
      = some (.str "residential") :=
  ⟨rfl, rfl, rfl, rfl, rfl⟩

/-- C4 amended: for every raw payload whose `ip` object has a truthy `as`
value and a `class` key, the result of `is_valid_data` is the
`DataVerifierResponse` built from the payload whose `ip` object carries
`_as` and `_class` with the original values of `as` and `class`, and
neither original key remains. -/
theorem normalizer_renames_as_and_class_when_truthy (client : Client)
    (response ipf : List (String × JValue)) (a c : JValue)
    (hapi : client.api_key.isNone = false)
    (hip : dictLookup response "ip" = some (.obj ipf))
    (ha : dictLookup ipf "as" = some a) (hat : a.truthy = true)
    (hc : dictLookup ipf "class" = some c) :
    ∃ ipf2,
      (is_valid_data client response).result
        = .ok (some { model := .dataVerifierResponse, payload := dictSet response "ip" (.obj ipf2) }) ∧
      dictLookup ipf2 "_as" = some a ∧ dictLookup ipf2 "_class" = some c ∧
      dictLookup ipf2 "as" = none ∧ dictLookup ipf2 "class" = none := by
  obtain ⟨ipf2, hnf, h1, h2, h3, h4⟩ := normalizeIpFields_spec ipf a c ha hc
  have hguard : (jGetD ipf "as").truthy = true := by
    rw [jGetD, ha, Option.getD_some]; exact hat
  have hnorm : normalizeResponse response = .ok (dictSet response "ip" (.obj ipf2)) := by
    simp only [normalizeResponse, hip, Option.getD_some, hguard, if_true, hnf]
  exact ⟨ipf2, by simp [is_valid_data, hapi, hnorm], h1, h2, h3, h4⟩

theorem normalizer_renames_as_and_class_when_truthy_witness :
    ({ root_api_key := some "rk", api_key := some "ak", server_email_config := none, base_url := "https://api.tpeoficial.com" } : Client).api_key.isNone = false ∧
    dictLookup [("ip", .obj [("valid", .bool true), ("as", .str "AS15169 Google LLC"), ("class", .str "hosting")])] "ip"
      = some (.obj [("valid", .bool true), ("as", .str "AS15169 Google LLC"), ("class", .str "hosting")]) ∧
    dictLookup [("valid", JValue.bool true), ("as", JValue.str "AS15169 Google LLC"), ("class", JValue.str "hosting")] "as"
      = some (.str "AS15169 Google LLC") ∧
    (JValue.str "AS15169 Google LLC").truthy = true ∧
    dictLookup [("valid", JValue.bool true), ("as", JValue.str "AS15169 Google LLC"), ("class", JValue.str "hosting")] "class"
      = some (.str "hosting") ∧
    (∃ ipf2,
      (is_valid_data { root_api_key := some "rk", api_key := some "ak", server_email_config := none, base_url := "https://api.tpeoficial.com" } [("ip", .obj [("valid", .bool true), ("as", .str "AS15169 Google LLC"), ("class", .str "hosting")])]).result
        = .ok (some { model := .dataVerifierResponse, payload := dictSet [("ip", .obj [("valid", .bool true), ("as", .str "AS15169 Google LLC"), ("class", .str "hosting")])] "ip" (.obj ipf2) }) ∧
      dictLookup ipf2 "_as" = some (.str "AS15169 Google LLC") ∧
      dictLookup ipf2 "_class" = some (.str "hosting") ∧
      dictLookup ipf2 "as" = none ∧ dictLookup ipf2 "class" = none) :=
  ⟨rfl, rfl, rfl, rfl, rfl,
    normalizer_renames_as_and_class_when_truthy _ _ _ _ _ rfl rfl rfl rfl rfl⟩
